import Mathlib

/-!
Verification of the note-sharing service core (identifier codec, storage
contract, request normalizer, note operation pipeline) against its Go source.

The Go code is shallowly embedded: strings stay strings, the filesystem and
the object store become explicit finite states (a path-indexed map plus a
fault map standing for true I/O failures such as permission or network
errors), and Go's `(value, error)` returns become `Except String`.
Go standard-library calls that are external to the repository
(`json.Unmarshal`, `url.ParseQuery`) enter as parameters of the handler
model, so theorems quantify over their behavior.
-/

namespace Note

/-! ## String helpers mirroring the Go standard library -/

/-- Go `strings.Contains` on character lists: `pat` occurs inside `l`. -/
def listHasSub (pat : List Char) : List Char → Bool
  | [] => pat.isEmpty
  | c :: t => pat.isPrefixOf (c :: t) || listHasSub pat t

/-- Go `strings.Contains s pat`. -/
def strContainsSub (s pat : String) : Bool :=
  listHasSub pat.data s.data

/-- Go `strings.Index`: index of the first occurrence of `pat` in `l`,
`none` when absent (Go returns -1). -/
def findSub (pat : List Char) : List Char → Option Nat
  | [] => if pat.isEmpty then some 0 else none
  | c :: t => if pat.isPrefixOf (c :: t) then some 0 else (findSub pat t).map (· + 1)

/-- The set of characters Go `unicode.IsSpace` accepts (the Unicode
White_Space property, enumerated). -/
def goIsSpace (c : Char) : Bool :=
  c == ' ' || c == '\t' || c == '\n' || c == '\x0B' || c == '\x0C' || c == '\r' ||
  c == '\u0085' || c == '\u00A0' || c == '\u1680' ||
  c == '\u2000' || c == '\u2001' || c == '\u2002' || c == '\u2003' || c == '\u2004' ||
  c == '\u2005' || c == '\u2006' || c == '\u2007' || c == '\u2008' || c == '\u2009' ||
  c == '\u200A' || c == '\u2028' || c == '\u2029' || c == '\u202F' || c == '\u205F' ||
  c == '\u3000'

/-- Go `strings.TrimSpace`: drop leading and trailing whitespace. -/
def goTrimSpace (s : String) : String :=
  String.mk (((s.data.dropWhile goIsSpace).reverse.dropWhile goIsSpace).reverse)

/-- Go `strings.Trim(s, "/")`: drop leading and trailing slashes. -/
def goTrimSlash (s : String) : String :=
  String.mk (((s.data.dropWhile (· == '/')).reverse.dropWhile (· == '/')).reverse)

/-- Go `strings.TrimSuffix`. -/
def goTrimSuffixStr (s suf : String) : String :=
  if suf.data.isSuffixOf s.data then String.mk (s.data.take (s.data.length - suf.data.length)) else s

/-! ## Identifier codec (`utils.go`) -/

/-- `ValidateNoteID` from `utils.go`: non-empty and matching
`^[a-zA-Z0-9]+$` (every character an ASCII letter or digit). -/
def ValidateNoteID (noteID : String) : Bool :=
  if noteID = "" then false
  else noteID.data.all (fun c => c.isAlpha || c.isDigit)

/-- The `charset` constant of `GenerateNoteID` in `utils.go`. -/
def generateCharset : List Char :=
  "ABCDEFGHJKLMNPQRSTUVWXYZ23456789".data

/-- `GenerateNoteID` from `utils.go`: five characters, each drawn from
`generateCharset` at an index produced by `rand.Intn(len(charset))`;
the random source is the parameter `r` (one index, below 32, per position). -/
def GenerateNoteID (r : Fin 5 → Fin 32) : String :=
  String.mk ((List.finRange 5).map (fun i =>
    generateCharset.get ⟨(r i).val,
      Nat.lt_of_lt_of_eq (r i).isLt (by decide : (32 : Nat) = generateCharset.length)⟩))

/-! ## Disk model and `LocalStorage` (`storage_local.go`)

The filesystem is a map from paths to file contents plus a fault map: a
`some msg` fault at a path makes every I/O operation on that path fail with
an error other than `os.ErrNotExist` (permission denied, disk failure, ...).
"File does not exist" arises structurally from `files p = none`. -/

/-- Error classes the Go code distinguishes via `errors.Is(err, os.ErrNotExist)`. -/
inductive IOErr where
  | notExist
  | other (msg : String)
deriving Repr, DecidableEq

/-- State of the local filesystem. -/
structure Disk where
  files : String → Option String
  fault : String → Option String

/-- `filepath.Join(dir, noteID)` for a clean directory and a separator-free
note id (the only ids the handlers pass down): plain concatenation. -/
def joinPath (dir id : String) : String := dir ++ "/" ++ id

/-- `ioutil.ReadFile`. -/
def readFile (d : Disk) (p : String) : Except IOErr String :=
  match d.fault p with
  | some msg => .error (.other msg)
  | none =>
    match d.files p with
    | some c => .ok c
    | none => .error .notExist

/-- `ioutil.WriteFile`. -/
def writeFile (d : Disk) (p c : String) : Except IOErr Disk :=
  match d.fault p with
  | some msg => .error (.other msg)
  | none => .ok { d with files := fun q => if q = p then some c else d.files q }

/-- `os.Remove`. -/
def removeFile (d : Disk) (p : String) : Except IOErr Disk :=
  match d.fault p with
  | some msg => .error (.other msg)
  | none =>
    match d.files p with
    | none => .error .notExist
    | some _ => .ok { d with files := fun q => if q = p then none else d.files q }

/-- `LocalStorage.Read`: a missing file is returned as empty content with
no error; any other failure is wrapped as an error. -/
def LocalStorage.Read (dir : String) (d : Disk) (noteID : String) : Except String String :=
  match readFile d (joinPath dir noteID) with
  | .error .notExist => .ok ""
  | .error (.other msg) => .error ("failed to read note: " ++ msg)
  | .ok c => .ok c

/-- `LocalStorage.Write`: create or fully overwrite the file named by the id. -/
def LocalStorage.Write (dir : String) (d : Disk) (noteID content : String) : Except String Disk :=
  match writeFile d (joinPath dir noteID) content with
  | .error (.other msg) => .error ("failed to write note: " ++ msg)
  | .error .notExist => .error "failed to write note: not exist"
  | .ok d2 => .ok d2

/-- `LocalStorage.Delete`: removing a missing file is silently ignored. -/
def LocalStorage.Delete (dir : String) (d : Disk) (noteID : String) : Except String Disk :=
  match removeFile d (joinPath dir noteID) with
  | .error .notExist => .ok d
  | .error (.other msg) => .error ("failed to delete note: " ++ msg)
  | .ok d2 => .ok d2

/-! ## Object-store model and `S3Storage` (`storage_s3.go`)

The store is a map from object keys to contents plus a fault map standing
for service errors; `GetObject` on a missing key yields an error message
carrying the `NoSuchKey` code, exactly what `S3Storage.Read` string-matches. -/

/-- State of the S3 bucket (under one bucket; keys are full object keys). -/
structure S3State where
  objects : String → Option String
  fault : String → Option String

/-- `S3Storage.objectKey`: `TrimSuffix(prefix, "/") + "/" + noteID`. -/
def S3Storage.objectKey (pfx noteID : String) : String :=
  goTrimSuffixStr pfx "/" ++ "/" ++ noteID

/-- `client.GetObject`: a missing key fails with a `NoSuchKey`-coded error. -/
def S3Storage.getObject (st : S3State) (key : String) : Except String String :=
  match st.fault key with
  | some msg => .error msg
  | none =>
    match st.objects key with
    | some c => .ok c
    | none => .error "NoSuchKey: the specified key does not exist"

/-- `S3Storage.Read`: an error whose text contains `NoSuchKey` becomes
empty content with no error; any other error is wrapped. -/
def S3Storage.Read (pfx : String) (st : S3State) (noteID : String) : Except String String :=
  match S3Storage.getObject st (S3Storage.objectKey pfx noteID) with
  | .ok c => .ok c
  | .error e =>
    if strContainsSub e "NoSuchKey" then .ok ""
    else .error ("failed to read note from S3: " ++ e)

/-- `S3Storage.Write` via `PutObject`. -/
def S3Storage.Write (pfx : String) (st : S3State) (noteID content : String) : Except String S3State :=
  match st.fault (S3Storage.objectKey pfx noteID) with
  | some msg => .error ("failed to write note to S3: " ++ msg)
  | none => .ok { st with objects := fun q =>
      if q = S3Storage.objectKey pfx noteID then some content else st.objects q }

/-- `S3Storage.Delete` via `DeleteObject`: S3 deletion of a missing key is
itself success, so only a service fault can fail. -/
def S3Storage.Delete (pfx : String) (st : S3State) (noteID : String) : Except String S3State :=
  match st.fault (S3Storage.objectKey pfx noteID) with
  | some msg => .error ("failed to delete note from S3: " ++ msg)
  | none => .ok { st with objects := fun q =>
      if q = S3Storage.objectKey pfx noteID then none else st.objects q }

/-! ## Request normalizer (`handlers.go`) -/

/-- `NoteRequest`: the canonical `(noteID, content)` pair. -/
structure NoteRequest where
  noteID : String
  content : String
deriving Repr, DecidableEq

/-- Go standard-library calls external to the repository, entering the model
as parameters: `jsonUnmarshal` is `json.Unmarshal` into `NoteRequest`
(`none` = parse error; absent fields decode to `""`), `parseQuery` is
`url.ParseQuery` (`none` = parse error; pairs in order of appearance). -/
structure GoLib where
  jsonUnmarshal : String → Option NoteRequest
  parseQuery : String → Option (List (String × String))

/-- `url.Values.Has`. -/
def valuesHas (vs : List (String × String)) (k : String) : Bool :=
  vs.any (fun p => p.1 == k)

/-- `url.Values.Get`: first value for the key, `""` when absent. -/
def valuesGet (vs : List (String × String)) (k : String) : String :=
  match vs.find? (fun p => p.1 == k) with
  | some p => p.2
  | none => ""

/-- The path marker of `extractPathNoteID`. -/
def pathMarker : String := "/noteid/"

/-- `extractPathNoteID`: the substring after the first `/noteid/`, trimmed
of surrounding slashes; `""` when the marker is absent. -/
def extractPathNoteID (path : String) : String :=
  match findSub pathMarker.data path.data with
  | some idx => goTrimSlash (String.mk (path.data.drop (idx + pathMarker.length)))
  | none => ""

/-- `extractNoteID` (GET): the `note=` query parameter, else the path id. -/
def extractNoteID (queryNote path : String) : String :=
  if queryNote ≠ "" then queryNote else extractPathNoteID path

/-- `parseNoteRequest`: body decoding by declared content type.
`queryNoteId` is `r.URL.Query().Get("noteId")` and `path` is `r.URL.Path`.
Returns the request plus the content type, or the 400-causing error. -/
def parseNoteRequest (lib : GoLib) (contentType body queryNoteId path : String) :
    Except String (NoteRequest × String) :=
  if strContainsSub contentType "application/json" then
    match lib.jsonUnmarshal body with
    | none => .error "invalid JSON format"
    | some req =>
      if req.noteID = "" then
        .ok ({ req with noteID := extractPathNoteID path }, contentType)
      else
        .ok (req, contentType)
  else if strContainsSub contentType "application/x-www-form-urlencoded" then
    match lib.parseQuery body with
    | some vs =>
      if valuesHas vs "text" || valuesHas vs "noteId" then
        .ok ({ noteID := valuesGet vs "noteId", content := valuesGet vs "text" }, contentType)
      else
        .ok ({ noteID := "", content := body }, contentType)
    | none => .ok ({ noteID := "", content := body }, contentType)
  else
    .ok ({ noteID := if queryNoteId = "" then extractPathNoteID path else queryNoteId,
           content := body }, contentType)

/-! ## Note operation pipeline (`HandlePost`, `HandleGet`) -/

/-- A storage invocation, for observing exactly which calls a request makes. -/
inductive StorageOp where
  | read : String → StorageOp
  | write : String → String → StorageOp
  | delete : String → StorageOp
deriving Repr, DecidableEq

/-- The `Storage` interface, polymorphic over the backend state `σ`. -/
structure StorageM (σ : Type) where
  read : σ → String → Except String String
  write : σ → String → String → Except String σ
  delete : σ → String → Except String σ

/-- The `LocalStorage` backend as a `Storage` instance. -/
def localStorageM (dir : String) : StorageM Disk where
  read := fun d id => LocalStorage.Read dir d id
  write := fun d id c => LocalStorage.Write dir d id c
  delete := fun d id => LocalStorage.Delete dir d id

/-- The `S3Storage` backend as a `Storage` instance. -/
def s3StorageM (pfx : String) : StorageM S3State where
  read := fun st id => S3Storage.Read pfx st id
  write := fun st id c => S3Storage.Write pfx st id c
  delete := fun st id => S3Storage.Delete pfx st id

/-- Outcome of `HandlePost`, abstracting the response encoding: which
status/shape was written. -/
inductive PostResult where
  | badRequest (msg : String)
  | internalError (msg : String)
  | success (noteId : String)
deriving Repr, DecidableEq

/-- HTTP status carried by each `PostResult`. -/
def postStatus : PostResult → Nat
  | .badRequest _ => 400
  | .internalError _ => 500
  | .success _ => 200

/-- The "ensure note ID" step of `HandlePost`: trim, then default an empty
id to the freshly generated one. -/
def resolveNoteID (genId rawId : String) : String :=
  let t := goTrimSpace rawId
  if t = "" then genId else t

/-- `HandlePost` after body parsing: ensure the id, validate it (400 before
any storage use), then delete on trimmed-empty content else write; records
the storage calls made and the resulting backend state. `genId` is the value
`GenerateNoteID()` would return for this request. -/
def handlePostCore {σ : Type} (S : StorageM σ) (st : σ) (genId : String)
    (req : NoteRequest) : PostResult × List StorageOp × σ :=
  let noteID := resolveNoteID genId req.noteID
  if ValidateNoteID noteID then
    if goTrimSpace req.content = "" then
      match S.delete st noteID with
      | .error _ => (.internalError "Failed to delete note", [.delete noteID], st)
      | .ok st2 => (.success noteID, [.delete noteID], st2)
    else
      match S.write st noteID req.content with
      | .error _ => (.internalError "Failed to save note", [.write noteID req.content], st)
      | .ok st2 => (.success noteID, [.write noteID req.content], st2)
  else
    (.badRequest "Invalid note ID format", [], st)

/-- `HandlePost` (body already read; OPTIONS preflight and the curl/form
response formatting omitted): parse, then run the pipeline; a parse error is
answered 400 with no storage access. -/
def HandlePost (lib : GoLib) {σ : Type} (S : StorageM σ) (st : σ) (genId : String)
    (contentType body queryNoteId path : String) : PostResult × List StorageOp × σ :=
  match parseNoteRequest lib contentType body queryNoteId path with
  | .error e => (.badRequest e, [], st)
  | .ok (req, _) => handlePostCore S st genId req

/-- Outcome of `HandleGet`, abstracting the response body rendering. -/
inductive GetResult where
  | internalError
  | notFound
  | plainContent (content : String)
  | htmlPage (noteId content : String)
deriving Repr, DecidableEq

/-- HTTP status carried by each `GetResult`. -/
def getStatus : GetResult → Nat
  | .internalError => 500
  | .notFound => 404
  | .plainContent _ => 200
  | .htmlPage _ _ => 200

/-- `HandleGet`: extract the id (query `note=` else path), read storage for a
non-empty id (500 on error), then answer raw text for curl callers (404 when
the content is empty) and the HTML page otherwise. -/
def HandleGet {σ : Type} (S : StorageM σ) (st : σ) (queryNote path : String)
    (isCurl : Bool) : GetResult :=
  let noteID := extractNoteID queryNote path
  let contentRes : Except String String :=
    if noteID = "" then .ok "" else S.read st noteID
  match contentRes with
  | .error _ => .internalError
  | .ok content =>
    if isCurl = true ∧ noteID ≠ "" then
      if content = "" then .notFound else .plainContent content
    else
      .htmlPage noteID content

/-! ## Concrete fixtures for closed statements -/

/-- Split a character list on a separator character. -/
def splitChar (sep : Char) : List Char → List (List Char)
  | [] => [[]]
  | c :: t =>
    if c = sep then [] :: splitChar sep t
    else
      match splitChar sep t with
      | [] => [[c]]
      | h :: r => (c :: h) :: r

/-- Split a character list at its first `=` into key and optional value. -/
def splitFirstEq : List Char → List Char × Option (List Char)
  | [] => ([], none)
  | c :: t =>
    if c = '=' then ([], some t)
    else
      let p := splitFirstEq t
      (c :: p.1, p.2)

/-- A concrete `url.ParseQuery` model, valid on percent-escape-free bodies
such as `text=hi` (each `&`-separated pair split at its first `=`). -/
def demoParseQuery (s : String) : Option (List (String × String)) :=
  some ((splitChar '&' s.data).map (fun kv =>
    let p := splitFirstEq kv
    (String.mk p.1, String.mk (p.2.getD []))))

/-- A concrete `GoLib` whose JSON decoder accepts nothing (no closed
statement below feeds it JSON) and whose form decoder is `demoParseQuery`. -/
def demoLib : GoLib where
  jsonUnmarshal := fun _ => none
  parseQuery := demoParseQuery

/-- A disk with no files and no faults. -/
def emptyDisk : Disk where
  files := fun _ => none
  fault := fun _ => none

/-- An object store with no objects and no faults. -/
def emptyS3 : S3State where
  objects := fun _ => none
  fault := fun _ => none

/-- A disk holding one healthy file. -/
def oneFileDisk (p c : String) : Disk where
  files := fun q => if q = p then some c else none
  fault := fun _ => none

/-- The all-zero random source for `GenerateNoteID`. -/
def zeroRand : Fin 5 → Fin 32 := fun _ => ⟨0, by norm_num⟩

example : extractPathNoteID "/noteid/ABCDE" = "ABCDE" := by decide
example : extractPathNoteID "/app/noteid/ABCDE/" = "ABCDE" := by decide
example : extractPathNoteID "/other" = "" := by decide
example : ValidateNoteID "abc123" = true := by decide
example : ValidateNoteID "a b" = false := by decide
example : ValidateNoteID "" = false := by decide
example : goTrimSpace "  hi \t" = "hi" := by decide
example : GenerateNoteID (fun _ => ⟨0, by decide⟩) = "AAAAA" := by decide
/-- Equality of `Except` results is decidable componentwise. -/
instance {α β : Type} [DecidableEq α] [DecidableEq β] : DecidableEq (Except α β)
  | .error a, .error b =>
    if h : a = b then .isTrue (by rw [h]) else .isFalse (by intro he; cases he; exact h rfl)
  | .error _, .ok _ => .isFalse (by intro he; cases he)
  | .ok _, .error _ => .isFalse (by intro he; cases he)
  | .ok a, .ok b =>
    if h : a = b then .isTrue (by rw [h]) else .isFalse (by intro he; cases he; exact h rfl)

example : LocalStorage.Read "notes" emptyDisk "abc" = .ok "" := by decide
example : S3Storage.Read "note" emptyS3 "abc" = .ok "" := by decide
example :
    parseNoteRequest demoLib "application/x-www-form-urlencoded" "text=hi" "" "/noteid/ABCDE"
      = .ok ({ noteID := "", content := "hi" }, "application/x-www-form-urlencoded") := by decide

/-! ## Helper lemmas -/

/-- Every character of `generateCharset` is an ASCII letter or digit. -/
theorem generateCharset_alnum : ∀ c ∈ generateCharset, (c.isAlpha || c.isDigit) = true := by
  decide

/-- Every character of a generated id comes from `generateCharset`. -/
theorem generate_mem_charset (r : Fin 5 → Fin 32) :
    ∀ c ∈ (GenerateNoteID r).data, c ∈ generateCharset := by
  intro c hc
  obtain ⟨i, -, rfl⟩ := List.mem_map.1 hc
  exact List.get_mem _ _ _

/-- A generated id has five characters. -/
theorem generate_length (r : Fin 5 → Fin 32) : (GenerateNoteID r).length = 5 := by
  simp [GenerateNoteID, String.length]

/-- A generated id is never the empty string. -/
theorem generate_ne_empty (r : Fin 5 → Fin 32) : GenerateNoteID r ≠ "" := by
  intro h
  have h5 := generate_length r
  rw [h] at h5
  simp at h5

/-- Every generated id passes `ValidateNoteID`. -/
theorem validate_generate (r : Fin 5 → Fin 32) : ValidateNoteID (GenerateNoteID r) = true := by
  unfold ValidateNoteID
  rw [if_neg (generate_ne_empty r)]
  refine List.all_eq_true.2 (fun c hc => ?_)
  exact generateCharset_alnum c (generate_mem_charset r c hc)

/-- Trimming a string made only of Go whitespace gives the empty string. -/
theorem goTrimSpace_of_all_space (s : String) (h : ∀ c ∈ s.data, goIsSpace c = true) :
    goTrimSpace s = "" := by
  unfold goTrimSpace
  have h1 : s.data.dropWhile goIsSpace = [] := by
    rw [List.dropWhile_eq_nil_iff]
    exact fun x hx => h x hx
  rw [h1]
  rfl

/-- The `NoSuchKey` string match in `S3Storage.Read` fires on the modelled
`GetObject` miss message. -/
theorem noSuchKey_match :
    strContainsSub "NoSuchKey: the specified key does not exist" "NoSuchKey" = true := by
  decide

/-! ## Claim theorems -/

/-- C1: for every id that was never written (or whose note was deleted),
`Storage.Read(id)` on both backends — disk and object store — returns empty
content and no error; "not found" is never surfaced as an error. Fault maps
are `none` at the derived key, i.e. no true I/O failure is injected. -/
theorem miss_returns_empty_C1 (dir pfx id : String) (d : Disk) (st : S3State)
    (hdf : d.fault (joinPath dir id) = none)
    (hsf : st.fault (S3Storage.objectKey pfx id) = none) :
    (d.files (joinPath dir id) = none → LocalStorage.Read dir d id = .ok "") ∧
    (∀ d2, LocalStorage.Delete dir d id = .ok d2 → LocalStorage.Read dir d2 id = .ok "") ∧
    (st.objects (S3Storage.objectKey pfx id) = none → S3Storage.Read pfx st id = .ok "") ∧
    (∀ st2, S3Storage.Delete pfx st id = .ok st2 → S3Storage.Read pfx st2 id = .ok "") := by
  refine ⟨?_, ?_, ?_, ?_⟩
  · intro hmiss
    simp [LocalStorage.Read, readFile, hdf, hmiss]
  · intro d2 hdel
    rcases hfiles : d.files (joinPath dir id) with _ | c <;>
      simp [LocalStorage.Delete, removeFile, hdf, hfiles] at hdel <;>
      subst hdel <;>
      simp [LocalStorage.Read, readFile, hdf, hfiles]
  · intro hmiss
    simp [S3Storage.Read, S3Storage.getObject, hsf, hmiss, noSuchKey_match]
  · intro st2 hdel
    simp [S3Storage.Delete, hsf] at hdel
    subst hdel
    simp [S3Storage.Read, S3Storage.getObject, hsf, noSuchKey_match]

/-- C3: on either backend, `Write(id, content)` followed by `Read(id)`
returns exactly that content, and `Delete(id)` followed by `Read(id)`
returns empty content, the same as for a never-created id (no injected
I/O fault at the key). -/
theorem read_after_write_C3 (dir pfx id c : String) (d : Disk) (st : S3State)
    (hdf : d.fault (joinPath dir id) = none)
    (hsf : st.fault (S3Storage.objectKey pfx id) = none) :
    (∃ d2, LocalStorage.Write dir d id c = .ok d2 ∧ LocalStorage.Read dir d2 id = .ok c) ∧
    (∃ d3, LocalStorage.Delete dir d id = .ok d3 ∧ LocalStorage.Read dir d3 id = .ok "") ∧
    (∃ st2, S3Storage.Write pfx st id c = .ok st2 ∧ S3Storage.Read pfx st2 id = .ok c) ∧
    (∃ st3, S3Storage.Delete pfx st id = .ok st3 ∧ S3Storage.Read pfx st3 id = .ok "") := by
  refine ⟨⟨{ d with files := fun q => if q = joinPath dir id then some c else d.files q }, ?_, ?_⟩,
      ?_,
      ⟨{ st with objects := fun q =>
          if q = S3Storage.objectKey pfx id then some c else st.objects q }, ?_, ?_⟩,
      ⟨{ st with objects := fun q =>
          if q = S3Storage.objectKey pfx id then none else st.objects q }, ?_, ?_⟩⟩
  · simp [LocalStorage.Write, writeFile, hdf]
  · simp [LocalStorage.Read, readFile, hdf]
  · rcases hfiles : d.files (joinPath dir id) with _ | c0
    · exact ⟨d, by simp [LocalStorage.Delete, removeFile, hdf, hfiles],
        by simp [LocalStorage.Read, readFile, hdf, hfiles]⟩
    · refine ⟨{ d with files := fun q => if q = joinPath dir id then none else d.files q },
        by simp [LocalStorage.Delete, removeFile, hdf, hfiles], ?_⟩
      simp [LocalStorage.Read, readFile, hdf]
  · simp [S3Storage.Write, hsf]
  · simp [S3Storage.Read, S3Storage.getObject, hsf]
  · simp [S3Storage.Delete, hsf]
  · simp [S3Storage.Read, S3Storage.getObject, hsf, noSuchKey_match]

/-- C4: `Storage.Delete(id)` on a non-existent id is not an error on either
backend, and deleting twice in a row succeeds both times with no error (no
injected I/O fault at the key). -/
theorem idempotent_delete_C4 (dir pfx id : String) (d : Disk) (st : S3State)
    (hdf : d.fault (joinPath dir id) = none)
    (hsf : st.fault (S3Storage.objectKey pfx id) = none) :
    (d.files (joinPath dir id) = none → LocalStorage.Delete dir d id = .ok d) ∧
    (∃ d2, LocalStorage.Delete dir d id = .ok d2 ∧ LocalStorage.Delete dir d2 id = .ok d2) ∧
    (st.objects (S3Storage.objectKey pfx id) = none →
      ∃ st2, S3Storage.Delete pfx st id = .ok st2) ∧
    (∃ st2 st3, S3Storage.Delete pfx st id = .ok st2 ∧ S3Storage.Delete pfx st2 id = .ok st3) := by
  refine ⟨?_, ?_, ?_, ?_⟩
  · intro hmiss
    simp [LocalStorage.Delete, removeFile, hdf, hmiss]
  · rcases hfiles : d.files (joinPath dir id) with _ | c0
    · exact ⟨d, by simp [LocalStorage.Delete, removeFile, hdf, hfiles],
        by simp [LocalStorage.Delete, removeFile, hdf, hfiles]⟩
    · refine ⟨{ d with files := fun q => if q = joinPath dir id then none else d.files q },
        by simp [LocalStorage.Delete, removeFile, hdf, hfiles], ?_⟩
      simp [LocalStorage.Delete, removeFile, hdf]
  · intro _
    exact ⟨{ st with objects := fun q =>
        if q = S3Storage.objectKey pfx id then none else st.objects q },
      by simp [S3Storage.Delete, hsf]⟩
  · exact ⟨{ st with objects := fun q =>
        if q = S3Storage.objectKey pfx id then none else st.objects q },
      { st with objects := fun q =>
        if q = S3Storage.objectKey pfx id then none
        else if q = S3Storage.objectKey pfx id then none else st.objects q },
      by simp [S3Storage.Delete, hsf], by simp [S3Storage.Delete, hsf]⟩

/-- C2: for every POST whose resolved note id (after trimming and
auto-generation defaulting) fails validation, the pipeline responds
bad-request (400) and performs zero storage calls. -/
theorem invalid_id_gate_C2 (lib : GoLib) {σ : Type} (S : StorageM σ) (st : σ)
    (genId contentType body q path : String) (req : NoteRequest) (ct : String)
    (hparse : parseNoteRequest lib contentType body q path = .ok (req, ct))
    (hinv : ValidateNoteID (resolveNoteID genId req.noteID) = false) :
    HandlePost lib S st genId contentType body q path
      = (.badRequest "Invalid note ID format", [], st) ∧
    postStatus (HandlePost lib S st genId contentType body q path).1 = 400 := by
  have h1 : HandlePost lib S st genId contentType body q path
      = (.badRequest "Invalid note ID format", [], st) := by
    simp [HandlePost, hparse, handlePostCore, hinv]
  exact ⟨h1, by rw [h1]; rfl⟩

/-- C5: for every POST with a valid id and content empty after trimming, the
pipeline calls `Storage.Delete(id)` and nothing else; on delete success it
responds success with that id, and a subsequent read of the id returns empty
content, the same as after an explicit delete (disk backend, no injected
I/O fault at the id's path). -/
theorem delete_on_empty_C5 (dir : String) (d : Disk) (genId : String) (req : NoteRequest)
    (hvalid : ValidateNoteID (resolveNoteID genId req.noteID) = true)
    (hempty : goTrimSpace req.content = "")
    (hfault : d.fault (joinPath dir (resolveNoteID genId req.noteID)) = none) :
    ∃ d2, handlePostCore (localStorageM dir) d genId req
        = (.success (resolveNoteID genId req.noteID),
           [StorageOp.delete (resolveNoteID genId req.noteID)], d2) ∧
      LocalStorage.Read dir d2 (resolveNoteID genId req.noteID) = .ok "" := by
  rcases hfiles : d.files (joinPath dir (resolveNoteID genId req.noteID)) with _ | c0
  · exact ⟨d,
      by simp [handlePostCore, hvalid, hempty, localStorageM, LocalStorage.Delete,
        removeFile, hfault, hfiles],
      by simp [LocalStorage.Read, readFile, hfault, hfiles]⟩
  · refine ⟨{ d with files := fun p =>
        if p = joinPath dir (resolveNoteID genId req.noteID) then none else d.files p }, ?_, ?_⟩
    · simp [handlePostCore, hvalid, hempty, localStorageM, LocalStorage.Delete,
        removeFile, hfault, hfiles]
    · simp [LocalStorage.Read, readFile, hfault]

/-- C10: a POST whose supplied note id consists only of whitespace is
treated as having no id: the id is trimmed away, the freshly generated id is
used, and the request is never rejected as an invalid-id bad-request — the
outcome is success under the generated id or a storage-failure 500. -/
theorem whitespace_id_autogen_C10 {σ : Type} (S : StorageM σ) (st : σ)
    (r : Fin 5 → Fin 32) (req : NoteRequest)
    (hws : ∀ c ∈ req.noteID.data, goIsSpace c = true) :
    resolveNoteID (GenerateNoteID r) req.noteID = GenerateNoteID r ∧
    ((handlePostCore S st (GenerateNoteID r) req).1 = PostResult.success (GenerateNoteID r) ∨
      postStatus (handlePostCore S st (GenerateNoteID r) req).1 = 500) ∧
    postStatus (handlePostCore S st (GenerateNoteID r) req).1 ≠ 400 := by
  have htrim : goTrimSpace req.noteID = "" := goTrimSpace_of_all_space _ hws
  have hres : resolveNoteID (GenerateNoteID r) req.noteID = GenerateNoteID r := by
    simp [resolveNoteID, htrim]
  refine ⟨hres, ?_⟩
  have hval := validate_generate r
  by_cases hc : goTrimSpace req.content = ""
  · rcases hdel : S.delete st (GenerateNoteID r) with e | st2 <;>
      simp [handlePostCore, hres, hval, hc, hdel, postStatus]
  · rcases hwr : S.write st (GenerateNoteID r) req.content with e | st2 <;>
      simp [handlePostCore, hres, hval, hc, hwr, postStatus]

/-- C6 counterexample: `generate()` does not draw from the 62-symbol
alphanumeric alphabet — its charset has 32 symbols and omits alphanumeric
characters such as `a` (and `0`, `1`, `I`, `O`), so ids like those are
unreachable; e.g. the all-zero random source yields `AAAAA`. -/
theorem generate_not_62_alphabet_C6_cex :
    generateCharset.length = 32 ∧
    (Char.isAlpha 'a' || Char.isDigit 'a') = true ∧
    generateCharset.contains 'a' = false ∧
    generateCharset.contains '0' = false ∧
    GenerateNoteID zeroRand = "AAAAA" := by
  decide

/-- C6 (amended): every call to `generate()` produces a 5-character string
whose characters are all drawn from the 32-symbol charset
`ABCDEFGHJKLMNPQRSTUVWXYZ23456789` (uppercase without `I`/`O`, digits 2–9;
each position an independent `rand.Intn(32)` pick), and every generated id
passes `validate()`. -/
theorem generate_valid_C6 (r : Fin 5 → Fin 32) :
    (GenerateNoteID r).length = 5 ∧
    ValidateNoteID (GenerateNoteID r) = true ∧
    (GenerateNoteID r).data.all (fun c => generateCharset.contains c) = true := by
  refine ⟨generate_length r, validate_generate r, ?_⟩
  refine List.all_eq_true.2 (fun c hc => ?_)
  exact List.elem_eq_true_of_mem (generate_mem_charset r c hc)

/-- C7 counterexample: a form-encoded write (`text=hi`) sent to
`/noteid/ABCDE` resolves to an empty note id — the form branch never falls
back to the path-embedded id even though the marker is present and neither
query nor body carries an id, contradicting the claimed global precedence
(which would resolve `ABCDE`). -/
theorem form_ignores_path_C7_cex :
    parseNoteRequest demoLib "application/x-www-form-urlencoded" "text=hi" "" "/noteid/ABCDE"
      = .ok ({ noteID := "", content := "hi" }, "application/x-www-form-urlencoded") ∧
    extractPathNoteID "/noteid/ABCDE" = "ABCDE" := by
  decide

/-- C7 (amended): id extraction depends on the declared content type rather
than one global precedence list. For content types that are neither JSON nor
form, the `noteId` query parameter wins, falling back to the path-embedded
id; for JSON bodies the body `noteId` field wins, falling back to the
path-embedded id (the query is never consulted); for form bodies only the
form's own `noteId` field is ever used — the result is independent of the
query and the path; an empty result means auto-generate. -/
theorem id_extraction_precedence_C7 (lib : GoLib) (ct body q path : String) :
    (strContainsSub ct "application/json" = false →
     strContainsSub ct "application/x-www-form-urlencoded" = false →
       parseNoteRequest lib ct body q path =
         .ok ({ noteID := if q = "" then extractPathNoteID path else q, content := body }, ct)) ∧
    (strContainsSub ct "application/json" = true →
       ∀ req, lib.jsonUnmarshal body = some req → req.noteID ≠ "" →
         parseNoteRequest lib ct body q path = .ok (req, ct)) ∧
    (strContainsSub ct "application/json" = true →
       ∀ req, lib.jsonUnmarshal body = some req → req.noteID = "" →
         parseNoteRequest lib ct body q path =
           .ok ({ req with noteID := extractPathNoteID path }, ct)) ∧
    (strContainsSub ct "application/json" = false →
     strContainsSub ct "application/x-www-form-urlencoded" = true →
       ∀ q2 path2, parseNoteRequest lib ct body q path = parseNoteRequest lib ct body q2 path2) := by
  refine ⟨?_, ?_, ?_, ?_⟩
  · intro hj hf
    simp [parseNoteRequest, hj, hf]
  · intro hj req hjson hne
    simp [parseNoteRequest, hj, hjson, hne]
  · intro hj req hjson heq
    simp [parseNoteRequest, hj, hjson, heq]
  · intro hj hf q2 path2
    simp [parseNoteRequest, hj, hf]

/-- C8 counterexample: a GET for the id `ABCDE` from a curl caller where the
storage read succeeds with empty content (the id was never written) is
answered 404 Not Found, not 200 as the claim states. -/
theorem curl_empty_404_C8_cex :
    LocalStorage.Read "notes" emptyDisk "ABCDE" = .ok "" ∧
    HandleGet (localStorageM "notes") emptyDisk "ABCDE" "" true = GetResult.notFound ∧
    getStatus (HandleGet (localStorageM "notes") emptyDisk "ABCDE" "" true) = 404 := by
  decide

/-- C8 (amended): for every GET with a non-empty id where the storage read
succeeds, a non-curl caller is shown the stored content with status 200 even
if it is empty, and a curl caller receives the raw content with 200 when it
is non-empty but 404 when it is empty; a storage read error yields an
internal error (500) for every caller. -/
theorem get_presents_content_C8 {σ : Type} (S : StorageM σ) (st : σ) (q path : String)
    (hid : extractNoteID q path ≠ "") :
    (∀ content, S.read st (extractNoteID q path) = .ok content →
       (HandleGet S st q path false = .htmlPage (extractNoteID q path) content ∧
         getStatus (HandleGet S st q path false) = 200) ∧
       (content ≠ "" → HandleGet S st q path true = .plainContent content ∧
         getStatus (HandleGet S st q path true) = 200) ∧
       (content = "" → HandleGet S st q path true = .notFound ∧
         getStatus (HandleGet S st q path true) = 404)) ∧
    (∀ e, S.read st (extractNoteID q path) = .error e →
       ∀ curl, HandleGet S st q path curl = .internalError ∧
         getStatus (HandleGet S st q path curl) = 500) := by
  constructor
  · intro content hread
    refine ⟨?_, ?_, ?_⟩
    · have h : HandleGet S st q path false = .htmlPage (extractNoteID q path) content := by
        simp [HandleGet, hid, hread]
      exact ⟨h, by rw [h]; rfl⟩
    · intro hne
      have h : HandleGet S st q path true = .plainContent content := by
        simp [HandleGet, hid, hread, hne]
      exact ⟨h, by rw [h]; rfl⟩
    · intro heq
      have h : HandleGet S st q path true = .notFound := by
        simp [HandleGet, hid, hread, heq]
      exact ⟨h, by rw [h]; rfl⟩
  · intro e hread curl
    have h : HandleGet S st q path curl = .internalError := by
      simp [HandleGet, hid, hread]
    exact ⟨h, by rw [h]; rfl⟩

/-- C9: request-body parsing fails (surfaced by the pipeline as a 400 with
no storage access) exactly when the declared content type announces JSON and
the body fails to unmarshal; a form-declared body that is malformed or lacks
both a `text` and a `noteId` field never errors and becomes literal content. -/
theorem parse_error_iff_json_C9 (lib : GoLib) {σ : Type} (S : StorageM σ) (st : σ)
    (genId ct body q path : String) :
    ((∃ e, parseNoteRequest lib ct body q path = .error e) ↔
      (strContainsSub ct "application/json" = true ∧ lib.jsonUnmarshal body = none)) ∧
    (strContainsSub ct "application/json" = false →
     strContainsSub ct "application/x-www-form-urlencoded" = true →
     (lib.parseQuery body = none ∨
      ∃ vs, lib.parseQuery body = some vs ∧
        valuesHas vs "text" = false ∧ valuesHas vs "noteId" = false) →
       parseNoteRequest lib ct body q path = .ok ({ noteID := "", content := body }, ct)) ∧
    (∀ e, parseNoteRequest lib ct body q path = .error e →
       HandlePost lib S st genId ct body q path = (.badRequest e, [], st) ∧
       postStatus (HandlePost lib S st genId ct body q path).1 = 400) := by
  refine ⟨⟨?_, ?_⟩, ?_, ?_⟩
  · rintro ⟨e, he⟩
    by_cases hj : strContainsSub ct "application/json" = true
    · rcases hjson : lib.jsonUnmarshal body with _ | req
      · exact ⟨hj, rfl⟩
      · rcases hne : decide (req.noteID = "") with _ | _ <;>
          simp_all [parseNoteRequest, hj, hjson]
    · by_cases hf : strContainsSub ct "application/x-www-form-urlencoded" = true
      · rcases hq : lib.parseQuery body with _ | vs
        · simp_all [parseNoteRequest]
        · by_cases hh : (valuesHas vs "text" || valuesHas vs "noteId") = true <;>
            simp_all [parseNoteRequest]
      · simp_all [parseNoteRequest]
  · rintro ⟨hj, hjson⟩
    exact ⟨"invalid JSON format", by simp [parseNoteRequest, hj, hjson]⟩
  · intro hj hf hbad
    rcases hbad with hq | ⟨vs, hq, ht, hn⟩
    · simp [parseNoteRequest, hj, hf, hq]
    · simp [parseNoteRequest, hj, hf, hq, ht, hn]
  · intro e he
    have h : HandlePost lib S st genId ct body q path = (.badRequest e, [], st) := by
      simp [HandlePost, he]
    exact ⟨h, by rw [h]; rfl⟩

/-! ## Witnesses: the claim theorems applied at concrete inputs -/

/-- C1 at a concrete empty disk and empty object store and the id `abc`. -/
theorem miss_returns_empty_C1_witness :
    emptyDisk.fault (joinPath "notes" "abc") = none ∧
    emptyS3.fault (S3Storage.objectKey "note" "abc") = none ∧
    (emptyDisk.files (joinPath "notes" "abc") = none →
      LocalStorage.Read "notes" emptyDisk "abc" = .ok "") :=
  ⟨rfl, rfl, (miss_returns_empty_C1 "notes" "note" "abc" emptyDisk emptyS3 rfl rfl).1⟩

/-- C2 at a concrete POST carrying the invalid id `a b`. -/
theorem invalid_id_gate_C2_witness :
    parseNoteRequest demoLib "text/plain" "x" "a b" "/"
      = .ok ({ noteID := "a b", content := "x" }, "text/plain") ∧
    ValidateNoteID (resolveNoteID "ABCDE" "a b") = false ∧
    HandlePost demoLib (localStorageM "notes") emptyDisk "ABCDE" "text/plain" "x" "a b" "/"
      = (.badRequest "Invalid note ID format", [], emptyDisk) :=
  ⟨by decide, by decide,
    (invalid_id_gate_C2 demoLib (localStorageM "notes") emptyDisk "ABCDE" "text/plain" "x"
      "a b" "/" { noteID := "a b", content := "x" } "text/plain" (by decide) (by decide)).1⟩

/-- C3 at a concrete empty disk and store, writing `hello` under `abc`. -/
theorem read_after_write_C3_witness :
    emptyDisk.fault (joinPath "notes" "abc") = none ∧
    emptyS3.fault (S3Storage.objectKey "note" "abc") = none ∧
    (∃ d2, LocalStorage.Write "notes" emptyDisk "abc" "hello" = .ok d2 ∧
      LocalStorage.Read "notes" d2 "abc" = .ok "hello") :=
  ⟨rfl, rfl, (read_after_write_C3 "notes" "note" "abc" "hello" emptyDisk emptyS3 rfl rfl).1⟩

/-- C4 at a concrete empty disk and store: double delete of `abc` succeeds. -/
theorem idempotent_delete_C4_witness :
    emptyDisk.fault (joinPath "notes" "abc") = none ∧
    emptyS3.fault (S3Storage.objectKey "note" "abc") = none ∧
    (∃ d2, LocalStorage.Delete "notes" emptyDisk "abc" = .ok d2 ∧
      LocalStorage.Delete "notes" d2 "abc" = .ok d2) :=
  ⟨rfl, rfl, (idempotent_delete_C4 "notes" "note" "abc" emptyDisk emptyS3 rfl rfl).2.1⟩

/-- C5 at a concrete disk holding `ABCDE`, posting whitespace-only content. -/
theorem delete_on_empty_C5_witness :
    ValidateNoteID (resolveNoteID "ZZZZZ" "ABCDE") = true ∧
    goTrimSpace " " = "" ∧
    (oneFileDisk (joinPath "notes" "ABCDE") "hello").fault
      (joinPath "notes" (resolveNoteID "ZZZZZ" "ABCDE")) = none ∧
    (∃ d2, handlePostCore (localStorageM "notes") (oneFileDisk (joinPath "notes" "ABCDE") "hello")
        "ZZZZZ" { noteID := "ABCDE", content := " " }
        = (.success (resolveNoteID "ZZZZZ" "ABCDE"),
           [StorageOp.delete (resolveNoteID "ZZZZZ" "ABCDE")], d2) ∧
      LocalStorage.Read "notes" d2 (resolveNoteID "ZZZZZ" "ABCDE") = .ok "") :=
  ⟨by decide, by decide, rfl,
    delete_on_empty_C5 "notes" (oneFileDisk (joinPath "notes" "ABCDE") "hello") "ZZZZZ"
      { noteID := "ABCDE", content := " " } (by decide) (by decide) rfl⟩

/-- C7 (amended) at a concrete raw-body POST with no query id and a path id. -/
theorem id_extraction_precedence_C7_witness :
    strContainsSub "text/plain" "application/json" = false ∧
    strContainsSub "text/plain" "application/x-www-form-urlencoded" = false ∧
    parseNoteRequest demoLib "text/plain" "hello" "" "/noteid/ZZ9"
      = .ok ({ noteID := if ("" : String) = "" then extractPathNoteID "/noteid/ZZ9" else "",
               content := "hello" }, "text/plain") :=
  ⟨by decide, by decide,
    (id_extraction_precedence_C7 demoLib "text/plain" "hello" "" "/noteid/ZZ9").1
      (by decide) (by decide)⟩

/-- C8 (amended) at a concrete disk where `AB` holds `hi`, non-curl caller. -/
theorem get_presents_content_C8_witness :
    extractNoteID "AB" "" ≠ "" ∧
    (localStorageM "n").read (oneFileDisk (joinPath "n" "AB") "hi") (extractNoteID "AB" "")
      = .ok "hi" ∧
    (HandleGet (localStorageM "n") (oneFileDisk (joinPath "n" "AB") "hi") "AB" "" false
        = .htmlPage (extractNoteID "AB" "") "hi" ∧
      getStatus (HandleGet (localStorageM "n") (oneFileDisk (joinPath "n" "AB") "hi")
        "AB" "" false) = 200) :=
  ⟨by decide, by decide,
    ((get_presents_content_C8 (localStorageM "n") (oneFileDisk (joinPath "n" "AB") "hi")
      "AB" "" (by decide)).1 "hi" (by decide)).1⟩

/-- C9 at a concrete form-declared POST whose body `junk` is not a form with
recognized fields: taken as literal content, no error. -/
theorem parse_error_iff_json_C9_witness :
    strContainsSub "application/x-www-form-urlencoded" "application/json" = false ∧
    strContainsSub "application/x-www-form-urlencoded" "application/x-www-form-urlencoded"
      = true ∧
    demoLib.parseQuery "junk" = some [("junk", "")] ∧
    parseNoteRequest demoLib "application/x-www-form-urlencoded" "junk" "" "/"
      = .ok ({ noteID := "", content := "junk" }, "application/x-www-form-urlencoded") :=
  ⟨by decide, by decide, by decide,
    (parse_error_iff_json_C9 demoLib (localStorageM "n") emptyDisk "G"
      "application/x-www-form-urlencoded" "junk" "" "/").2.1 (by decide) (by decide)
      (Or.inr ⟨[("junk", "")], by decide, by decide, by decide⟩)⟩

/-- C10 at a concrete POST whose supplied id is a single space. -/
theorem whitespace_id_autogen_C10_witness :
    (∀ c ∈ (" " : String).data, goIsSpace c = true) ∧
    resolveNoteID (GenerateNoteID zeroRand) " " = GenerateNoteID zeroRand :=
  ⟨by decide,
    (whitespace_id_autogen_C10 (localStorageM "n") emptyDisk zeroRand
      { noteID := " ", content := "hi" } (by decide)).1⟩

end Note
